import Mathlib

/-!
Verification of the per-parcel SB79 capacity pipeline
(src/what_could_have_been.py) against its specification.

The row-wise numeric functions of the pipeline are embedded over `ℚ`.
A pandas value that may be NaN/absent is embedded as an `Option`;
`pd.notna` checks become `Option` pattern matches.
-/

namespace SB79

/-! ### Constants (source lines 88–126) -/

def AVG_UNIT_SF : ℚ := 800
def EFFICIENCY : ℚ := 0.85
def ACRE_SF : ℚ := 43560
def FLOOR_HEIGHT_FT : ℚ := 10
def UTILIZATION_THRESHOLD : ℚ := 0.8

def FEASIBILITY_LANDMARK : ℚ := 0.02
def FEASIBILITY_INDIVIDUAL_HISTORIC : ℚ := 0.10
def FEASIBILITY_HISTORIC_DISTRICT : ℚ := 0.15
def FEASIBILITY_SURVEYED : ℚ := 0.18
def FEASIBILITY_STEEP_SLOPE : ℚ := 0.12
def FEASIBILITY_MODERATE_SLOPE : ℚ := 0.18
def FEASIBILITY_SMALL_LOT : ℚ := 0.15
def FEASIBILITY_TIER1 : ℚ := 0.25
def FEASIBILITY_DEFAULT : ℚ := 0.20

/-- A row of the baseline zoning table (source lines 96–103). -/
structure ZoneSpec where
  du_ac : ℚ
  far : ℚ
deriving DecidableEq

/-- BASELINE_ZONING dict lookup (source lines 96–103): zoning code to
density-per-acre and FAR, `none` when the code is absent from the dict. -/
def BASELINE_ZONING (zone : String) : Option ZoneSpec :=
  if zone = "RH-1" then some ⟨30, 1.5⟩
  else if zone = "RH-2" then some ⟨45, 1.8⟩
  else if zone = "RH-3" then some ⟨60, 2⟩
  else if zone = "RM-1" then some ⟨90, 2.5⟩
  else if zone = "RM-2" then some ⟨120, 3⟩
  else if zone = "RM-3" then some ⟨150, 3.5⟩
  else none

/-! ### units_allowed (source lines 132–135) -/

def units_allowed (area_sf du_ac far : ℚ) : ℚ :=
  min (du_ac * (area_sf / ACRE_SF)) ((area_sf * far * EFFICIENCY) / AVG_UNIT_SF)

/-! ### The per-parcel row

Fields of `parcel_all` used by the row-wise functions under study.
Nullable pandas values are `Option`s. -/

structure Row where
  zoning : Option String
  parcel_area_sf : ℚ
  gen_hght : Option ℚ
  historic_type : Option String
  num_buildings : ℚ
  is_steep_slope : Bool
  is_moderate_slope : Bool
  TZ : Option String
  MaxDensity : Option ℚ
  FloorAreaRatio : Option ℚ
  existing_far : ℚ
deriving DecidableEq

/-- Height-derived FAR computed inside `baseline_units` (source lines 819–833):
when height data is present and positive, a value of at least 1000 ft is
remapped to 400 ft, max floors is height over 10 ft, and FAR is floors times a
0.8 lot-coverage factor; otherwise the default FAR of 2.0. -/
def heightBasedFar (gen_hght : Option ℚ) : ℚ :=
  match gen_hght with
  | some h =>
      if 0 < h then
        (if 1000 ≤ h then (400 : ℚ) else h) / FLOOR_HEIGHT_FT * 0.8
      else 2
  | none => 2

/-- baseline_units (source lines 814–851).  The zoning-table branch takes the
more restrictive of the table FAR and the height-derived FAR; the fallback
branch is guarded by Python truthiness of the height-derived FAR. -/
def baseline_units (row : Row) : ℚ :=
  let height_based_far := heightBasedFar row.gen_hght
  match row.zoning.bind BASELINE_ZONING with
  | some z =>
      let effective_far := if height_based_far < z.far then height_based_far else z.far
      units_allowed row.parcel_area_sf z.du_ac effective_far
  | none =>
      if height_based_far ≠ 0 then
        units_allowed row.parcel_area_sf 100 height_based_far
      else 0

/-- feasibility (source lines 882–913): ordered decision table,
first matching rule wins. -/
def feasibility (row : Row) : ℚ :=
  if row.historic_type = some "landmark" then FEASIBILITY_LANDMARK
  else if row.historic_type = some "individual" then FEASIBILITY_INDIVIDUAL_HISTORIC
  else if row.historic_type = some "district" then FEASIBILITY_HISTORIC_DISTRICT
  else if row.historic_type = some "surveyed" then FEASIBILITY_SURVEYED
  else if row.is_steep_slope = true ∧ ¬ 0 < row.num_buildings then FEASIBILITY_STEEP_SLOPE
  else if row.is_moderate_slope = true ∧ ¬ 0 < row.num_buildings then FEASIBILITY_MODERATE_SLOPE
  else if row.parcel_area_sf < 2500 then FEASIBILITY_SMALL_LOT
  else if row.TZ = some "T1Z1" ∨ row.TZ = some "T1Z2" then FEASIBILITY_TIER1
  else FEASIBILITY_DEFAULT

/-! ### Utilization (source lines 702–716 and 744) -/

/-- get_sb79_utilization (source lines 702–714). -/
def get_sb79_utilization (row : Row) : ℚ :=
  if row.existing_far = 0 then 0
  else
    match row.FloorAreaRatio with
    | some f => if 0 < f then row.existing_far / f else 0
    | none => 0

/-- The utilization column (source line 716): `get_sb79_utilization`
clipped to the upper bound 2.0. -/
def utilization (row : Row) : ℚ :=
  min (get_sb79_utilization row) 2

/-- is_highly_utilized (source line 744): utilization above the 0.8 threshold. -/
def is_highly_utilized (row : Row) : Bool :=
  decide (UTILIZATION_THRESHOLD < utilization row)

/-! ### Added capacity (source lines 874–876) -/

/-- added_units_theoretical (source lines 874–876): the columnwise difference
sb79_units minus baseline_units, clipped below at 0. -/
def added_units_theoretical (sb79_units baseline : ℚ) : ℚ :=
  max (sb79_units - baseline) 0

/-! ### Historic classification (source lines 465–467 and 503–515) -/

def DISTRICT_HISTORIC_LAYERS : List String :=
  ["national_register", "california_register", "article10_districts", "article11_districts"]

def SURVEYED_HISTORIC_LAYERS : List String :=
  ["historic_survey"]

/-- classify_historic_type (source lines 503–515): classify a parcel by its
set of intersected historic-layer names, most restrictive first. -/
def classify_historic_type (layers : List String) : Option String :=
  if layers.isEmpty then none
  else if "landmarks" ∈ layers then some "landmark"
  else if "historic_resources" ∈ layers then some "individual"
  else if layers.any (fun s => decide (s ∈ DISTRICT_HISTORIC_LAYERS)) then some "district"
  else if layers.any (fun s => decide (s ∈ SURVEYED_HISTORIC_LAYERS)) then some "surveyed"
  else none

/-! ### Building height column fallback (source lines 371–381) -/

/-- Which height columns the building-footprint layer carries. -/
structure BuildingFrame where
  has_hgt_median_m : Bool
  has_hgt_mediancm : Bool
deriving DecidableEq

/-- One building footprint row; each field is the column value after
`pd.to_numeric(..., errors="coerce")`, `none` for NaN or non-numeric. -/
structure BuildingRow where
  hgt_median_m : Option ℚ
  hgt_mediancm : Option ℚ
deriving DecidableEq

/-- The height_m column (source lines 371–381): the meters column when that
column exists, else the centimeters column divided by 100, else 6.0;
then missing values are filled with 6.0. -/
def height_m (f : BuildingFrame) (b : BuildingRow) : ℚ :=
  let v : Option ℚ :=
    if f.has_hgt_median_m then b.hgt_median_m
    else if f.has_hgt_mediancm then b.hgt_mediancm.map (fun c => c / 100)
    else some 6
  v.getD 6

/-! ### SB79 tier join deduplication (source lines 605–633)

A candidate match of the parcel–tier spatial join is a pair of a parcel id and
the tier record's attributes.  The source sorts all candidates by MaxDensity
descending then FloorAreaRatio descending with nulls last, and keeps the first
row per parcel id. -/

/-- The tier attributes of one candidate match. -/
structure TierRec where
  MaxDensity : Option ℚ
  FloorAreaRatio : Option ℚ
deriving DecidableEq

/-- A nullable sort key: `none` (NaN, placed last when descending) maps to
bottom, below every numeric value. -/
def optKey : Option ℚ → WithBot ℚ
  | none => ⊥
  | some q => (q : WithBot ℚ)

/-- Composite sort key of a tier record: density first, FAR second. -/
def tierKey (r : TierRec) : WithBot ℚ × WithBot ℚ :=
  (optKey r.MaxDensity, optKey r.FloorAreaRatio)

/-- Lexicographic order on composite keys: greater density wins, ties broken
by FAR, nulls (bottom) last. -/
def keyLE (a b : WithBot ℚ × WithBot ℚ) : Prop :=
  a.1 < b.1 ∨ (a.1 = b.1 ∧ a.2 ≤ b.2)

instance (a b : WithBot ℚ × WithBot ℚ) : Decidable (keyLE a b) := by
  unfold keyLE; infer_instance

/-- Insert a candidate into a descending-sorted candidate list, keeping it
sorted (the insertion step of the sort in source lines 622–630). -/
def insertTier (x : Nat × TierRec) : List (Nat × TierRec) → List (Nat × TierRec)
  | [] => [x]
  | y :: ys =>
      if keyLE (tierKey y.2) (tierKey x.2) then x :: y :: ys
      else y :: insertTier x ys

/-- Sort all candidates descending by (MaxDensity, FloorAreaRatio), nulls
last (the sort_values of source lines 622–630). -/
def sortTier : List (Nat × TierRec) → List (Nat × TierRec)
  | [] => []
  | x :: xs => insertTier x (sortTier xs)

/-- drop_duplicates on parcel_id (source line 629): keep the first occurrence
of each parcel id. -/
def dedupFirst : List (Nat × TierRec) → List Nat → List (Nat × TierRec)
  | [], _ => []
  | x :: xs, seen =>
      if x.1 ∈ seen then dedupFirst xs seen
      else x :: dedupFirst xs (x.1 :: seen)

/-- The whole tier-join dedup (source lines 622–630): sort descending by
(density, FAR) with nulls last, then keep the first row per parcel id. -/
def tierDedup (l : List (Nat × TierRec)) : List (Nat × TierRec) :=
  dedupFirst (sortTier l) []

/-! ### Spec-side predicates used to state the feasibility decision table -/

/-- None of the four historic rungs of the feasibility table matches. -/
def noHistoricRung (row : Row) : Prop :=
  row.historic_type ≠ some "landmark" ∧ row.historic_type ≠ some "individual" ∧
  row.historic_type ≠ some "district" ∧ row.historic_type ≠ some "surveyed"

/-- Neither slope rule of the feasibility table matches. -/
def noSlopeRule (row : Row) : Prop :=
  ¬ (row.is_steep_slope = true ∧ ¬ 0 < row.num_buildings) ∧
  ¬ (row.is_moderate_slope = true ∧ ¬ 0 < row.num_buildings)

/-! ## Theorems -/

/-! ### Helper lemmas shared between claims -/

theorem heightBasedFar_pos (o : Option ℚ) : 0 < heightBasedFar o := by
  match o with
  | none => norm_num [heightBasedFar]
  | some h =>
      simp only [heightBasedFar, FLOOR_HEIGHT_FT]
      split_ifs with h1 h2
      · norm_num
      · positivity
      · norm_num

theorem baseline_units_eq_min (row : Row) :
    baseline_units row =
      match row.zoning.bind BASELINE_ZONING with
      | some z => units_allowed row.parcel_area_sf z.du_ac
          (min z.far (heightBasedFar row.gen_hght))
      | none => units_allowed row.parcel_area_sf 100 (heightBasedFar row.gen_hght) := by
  unfold baseline_units
  cases hz : row.zoning.bind BASELINE_ZONING with
  | some z =>
      simp only []
      congr 1
      rcases lt_trichotomy (heightBasedFar row.gen_hght) z.far with h | h | h
      · rw [if_pos h, min_eq_right h.le]
      · rw [if_neg (by rw [h]; exact lt_irrefl _), h, min_self]
      · rw [if_neg (not_lt.mpr h.le), min_eq_left h.le]
  | none =>
      simp only []
      rw [if_pos (heightBasedFar_pos row.gen_hght).ne']

theorem BASELINE_ZONING_pos {s : String} {z : ZoneSpec}
    (h : BASELINE_ZONING s = some z) : 0 < z.du_ac ∧ 0 < z.far := by
  unfold BASELINE_ZONING at h
  split_ifs at h <;>
    first
      | exact Option.noConfusion h
      | (injection h with h; subst h; exact ⟨by norm_num, by norm_num⟩)

theorem units_allowed_pos {area du far : ℚ} (ha : 0 < area) (hd : 0 < du)
    (hf : 0 < far) : 0 < units_allowed area du far := by
  unfold units_allowed AVG_UNIT_SF EFFICIENCY ACRE_SF
  apply lt_min
  · positivity
  · positivity

/-! ### Claim theorems -/

/-- C1: for every parcel area, density and FAR, units_allowed equals
min(density × area / 43560, area × FAR × 0.85 / 800); at (5000, 30, 1.5) it
equals the density cap 30 × 5000 / 43560, which is strictly smaller than the
floor-area cap 5000 × 1.5 × 0.85 / 800. -/
theorem units_allowed_spec :
    (∀ area du far : ℚ,
        units_allowed area du far = min (du * area / 43560) (area * far * 0.85 / 800)) ∧
    units_allowed 5000 30 1.5 = 30 * 5000 / 43560 ∧
    (30 * 5000 / 43560 : ℚ) < 5000 * 1.5 * 0.85 / 800 := by
  refine ⟨fun area du far => ?_, ?_, ?_⟩
  · unfold units_allowed AVG_UNIT_SF EFFICIENCY ACRE_SF
    congr 1
    ring
  · norm_num [units_allowed, AVG_UNIT_SF, EFFICIENCY, ACRE_SF, min_def]
  · norm_num

/-- Witness for C1: the general formula evaluated at area 5000, density 30,
FAR 1.5. -/
theorem units_allowed_spec_witness :
    units_allowed 5000 30 1.5 = min ((30 : ℚ) * 5000 / 43560) (5000 * 1.5 * 0.85 / 800) :=
  units_allowed_spec.1 5000 30 1.5

/-- C2: baseline_units uses a height-derived FAR of (height/10) × 0.8 with
heights of 1000 ft or more remapped to 400 ft and a default of 2.0 when
height data is absent or non-positive; a zoning code found in the baseline
table yields units_allowed(area, table density, min(table FAR, height FAR)),
and a code absent from the table yields units_allowed(area, 100, height FAR). -/
theorem baseline_units_spec :
    (∀ row : Row, baseline_units row =
      match row.zoning.bind BASELINE_ZONING with
      | some z => units_allowed row.parcel_area_sf z.du_ac
          (min z.far (heightBasedFar row.gen_hght))
      | none => units_allowed row.parcel_area_sf 100 (heightBasedFar row.gen_hght)) ∧
    (∀ h : ℚ, 0 < h → h < 1000 → heightBasedFar (some h) = h / 10 * 0.8) ∧
    (∀ h : ℚ, 1000 ≤ h → heightBasedFar (some h) = 400 / 10 * 0.8) ∧
    (∀ h : ℚ, h ≤ 0 → heightBasedFar (some h) = 2) ∧
    heightBasedFar none = 2 := by
  refine ⟨baseline_units_eq_min, fun h h1 h2 => ?_, fun h h1 => ?_, fun h h1 => ?_, rfl⟩
  · simp only [heightBasedFar, FLOOR_HEIGHT_FT]
    rw [if_pos h1, if_neg (not_le.mpr h2)]
  · simp only [heightBasedFar, FLOOR_HEIGHT_FT]
    rw [if_pos (by linarith), if_pos h1]
  · simp only [heightBasedFar]
    rw [if_neg (not_lt.mpr h1)]

/-- Witness for C2: a height of 40 ft is positive and below 1000, and the
height-derived FAR there is 40 / 10 × 0.8 = 3.2. -/
theorem baseline_units_spec_witness :
    (0 : ℚ) < 40 ∧ (40 : ℚ) < 1000 ∧ heightBasedFar (some 40) = 40 / 10 * 0.8 :=
  ⟨by norm_num, by norm_num, baseline_units_spec.2.1 40 (by norm_num) (by norm_num)⟩

/-- C7: added_units_theoretical equals max(0, upzoned − baseline), is never
negative, and is 0 at upzoned = 0, baseline = 10. -/
theorem added_units_theoretical_spec :
    (∀ u b : ℚ, added_units_theoretical u b = max 0 (u - b)) ∧
    (∀ u b : ℚ, 0 ≤ added_units_theoretical u b) ∧
    added_units_theoretical 0 10 = 0 := by
  refine ⟨fun u b => max_comm _ _, fun u b => le_max_right _ _, ?_⟩
  norm_num [added_units_theoretical]

/-- Witness for C7: the clamp evaluated at upzoned 0 and baseline 10. -/
theorem added_units_theoretical_spec_witness :
    added_units_theoretical 0 10 = max 0 (0 - 10) :=
  added_units_theoretical_spec.1 0 10

/-- C8: every branch of the feasibility scorer, including the default
fallback, returns a factor strictly greater than 0 and at most 1. -/
theorem feasibility_in_unit_interval (row : Row) :
    0 < feasibility row ∧ feasibility row ≤ 1 := by
  unfold feasibility
  split_ifs <;>
    constructor <;>
      norm_num [FEASIBILITY_LANDMARK, FEASIBILITY_INDIVIDUAL_HISTORIC,
        FEASIBILITY_HISTORIC_DISTRICT, FEASIBILITY_SURVEYED, FEASIBILITY_STEEP_SLOPE,
        FEASIBILITY_MODERATE_SLOPE, FEASIBILITY_SMALL_LOT, FEASIBILITY_TIER1,
        FEASIBILITY_DEFAULT]

/-- Witness for C8: the range property evaluated at a concrete
unconstrained parcel row. -/
theorem feasibility_in_unit_interval_witness :
    0 < feasibility ⟨none, 5000, none, none, 0, false, false, none, none, none, 0⟩ ∧
    feasibility ⟨none, 5000, none, none, 0, false, false, none, none, none, 0⟩ ≤ 1 :=
  feasibility_in_unit_interval _

/-- C9 counterexample: with height data present and equal to 1/2 ft, the
height-derived FAR is 1/25 = 0.04, strictly below the claimed lower bound
0.08; so the height-derived FAR is not always at least 0.08 when height data
is present. -/
theorem heightBasedFar_not_ge_008 :
    heightBasedFar (some (1/2)) = 1/25 ∧ heightBasedFar (some (1/2)) < 0.08 := by
  norm_num [heightBasedFar, FLOOR_HEIGHT_FT]

/-- C9 (amended): the height-derived FAR is always strictly positive — at
least 0.08 whenever the height datum is at least 1 ft, and the default 2.0
when height data is absent — so the truthiness guard always passes, the final
fallback branch returning 0.0 is unreachable, and baseline_units is strictly
positive for every parcel with positive area. -/
theorem baseline_units_fallback_unreachable (row : Row) :
    0 < heightBasedFar row.gen_hght ∧
    (∀ h : ℚ, row.gen_hght = some h → 1 ≤ h → 0.08 ≤ heightBasedFar row.gen_hght) ∧
    (row.gen_hght = none → heightBasedFar row.gen_hght = 2) ∧
    (row.zoning.bind BASELINE_ZONING = none →
        baseline_units row = units_allowed row.parcel_area_sf 100 (heightBasedFar row.gen_hght)) ∧
    (0 < row.parcel_area_sf → 0 < baseline_units row) := by
  refine ⟨heightBasedFar_pos _, ?_, ?_, ?_, ?_⟩
  · intro h hh h1
    rw [hh]
    simp only [heightBasedFar, FLOOR_HEIGHT_FT]
    rw [if_pos (by linarith)]
    split_ifs with h2
    · norm_num
    · nlinarith
  · intro hnone
    rw [hnone]
    rfl
  · intro hz
    rw [baseline_units_eq_min, hz]
  · intro ha
    rw [baseline_units_eq_min]
    cases hz : row.zoning.bind BASELINE_ZONING with
    | some z =>
        have hp := BASELINE_ZONING_pos (s := row.zoning.getD "") (z := z) ?_
        · exact units_allowed_pos ha hp.1 (lt_min hp.2 (heightBasedFar_pos _))
        · cases hzo : row.zoning with
          | some s => rw [hzo] at hz; simpa using hz
          | none => rw [hzo] at hz; simp at hz
    | none =>
        exact units_allowed_pos ha (by norm_num) (heightBasedFar_pos _)

/-- Witness for C9: a parcel with no zoning match, height 25 ft and area
5000 sq ft has positive baseline_units. -/
theorem baseline_units_fallback_unreachable_witness :
    baseline_units ⟨some "NC-3", 5000, some 25, none, 0, false, false, none, none, none, 0⟩ =
      units_allowed 5000 100 (heightBasedFar (some 25)) ∧
    0 < baseline_units ⟨some "NC-3", 5000, some 25, none, 0, false, false, none, none, none, 0⟩ :=
  ⟨(baseline_units_fallback_unreachable _).2.2.2.1 (by decide),
   (baseline_units_fallback_unreachable _).2.2.2.2 (by norm_num)⟩

/-- C3: the feasibility factor follows the ordered decision table — historic
landmark 0.02, individual 0.10, district 0.15, surveyed 0.18, then steep slope
with zero buildings 0.12, moderate slope with zero buildings 0.18, then lot
area under 2500 sq ft 0.15, then tier code T1Z1 or T1Z2 0.25, else 0.20 — and
a parcel with at least one building never receives the steep-slope factor
0.12. -/
theorem feasibility_table (row : Row) :
    (row.historic_type = some "landmark" → feasibility row = FEASIBILITY_LANDMARK) ∧
    (row.historic_type = some "individual" → feasibility row = FEASIBILITY_INDIVIDUAL_HISTORIC) ∧
    (row.historic_type = some "district" → feasibility row = FEASIBILITY_HISTORIC_DISTRICT) ∧
    (row.historic_type = some "surveyed" → feasibility row = FEASIBILITY_SURVEYED) ∧
    (noHistoricRung row → row.is_steep_slope = true → row.num_buildings = 0 →
        feasibility row = FEASIBILITY_STEEP_SLOPE) ∧
    (noHistoricRung row → row.is_steep_slope = false → row.is_moderate_slope = true →
        row.num_buildings = 0 → feasibility row = FEASIBILITY_MODERATE_SLOPE) ∧
    (noHistoricRung row → noSlopeRule row → row.parcel_area_sf < 2500 →
        feasibility row = FEASIBILITY_SMALL_LOT) ∧
    (noHistoricRung row → noSlopeRule row → ¬ row.parcel_area_sf < 2500 →
        (row.TZ = some "T1Z1" ∨ row.TZ = some "T1Z2") →
        feasibility row = FEASIBILITY_TIER1) ∧
    (noHistoricRung row → noSlopeRule row → ¬ row.parcel_area_sf < 2500 →
        ¬ (row.TZ = some "T1Z1" ∨ row.TZ = some "T1Z2") →
        feasibility row = FEASIBILITY_DEFAULT) ∧
    (0 < row.num_buildings → feasibility row ≠ FEASIBILITY_STEEP_SLOPE) := by
  refine ⟨?_, ?_, ?_, ?_, ?_, ?_, ?_, ?_, ?_, ?_⟩
  · intro h; simp [feasibility, h]
  · intro h; simp [feasibility, h]
  · intro h; simp [feasibility, h]
  · intro h; simp [feasibility, h]
  · rintro ⟨h1, h2, h3, h4⟩ hs hn
    simp [feasibility, h1, h2, h3, h4, hs, hn]
  · rintro ⟨h1, h2, h3, h4⟩ hs hm hn
    simp [feasibility, h1, h2, h3, h4, hs, hm, hn]
  · rintro ⟨h1, h2, h3, h4⟩ ⟨hs, hm⟩ ha
    unfold feasibility
    rw [if_neg h1, if_neg h2, if_neg h3, if_neg h4, if_neg hs, if_neg hm, if_pos ha]
  · rintro ⟨h1, h2, h3, h4⟩ ⟨hs, hm⟩ ha ht
    unfold feasibility
    rw [if_neg h1, if_neg h2, if_neg h3, if_neg h4, if_neg hs, if_neg hm,
      if_neg ha, if_pos ht]
  · rintro ⟨h1, h2, h3, h4⟩ ⟨hs, hm⟩ ha ht
    unfold feasibility
    rw [if_neg h1, if_neg h2, if_neg h3, if_neg h4, if_neg hs, if_neg hm,
      if_neg ha, if_neg ht]
  · intro hb
    unfold feasibility
    split_ifs with h1 h2 h3 h4 h5 h6 h7 h8 <;>
      first
        | exact absurd hb h5.2
        | exact absurd hb h6.2
        | norm_num [FEASIBILITY_LANDMARK, FEASIBILITY_INDIVIDUAL_HISTORIC,
            FEASIBILITY_HISTORIC_DISTRICT, FEASIBILITY_SURVEYED,
            FEASIBILITY_STEEP_SLOPE, FEASIBILITY_MODERATE_SLOPE,
            FEASIBILITY_SMALL_LOT, FEASIBILITY_TIER1, FEASIBILITY_DEFAULT]

/-- Witness for C3: a non-historic steep-slope parcel with zero buildings
gets factor 0.12, and the identical parcel with one building does not. -/
theorem feasibility_table_witness :
    feasibility ⟨none, 5000, none, none, 0, true, false, none, none, none, 0⟩ =
      FEASIBILITY_STEEP_SLOPE ∧
    feasibility ⟨none, 5000, none, none, 1, true, false, none, none, none, 0⟩ ≠
      FEASIBILITY_STEEP_SLOPE :=
  ⟨(feasibility_table _).2.2.2.2.1 (by refine ⟨?_, ?_, ?_, ?_⟩ <;> decide) rfl rfl,
   (feasibility_table _).2.2.2.2.2.2.2.2.2 (by norm_num)⟩

/-- C4: classify_historic_type returns the highest-priority rung whose layer
the parcel's set of intersected historic-layer names contains: landmark, else
individual, else district (any of the four district layers), else surveyed,
else none when no rung matches. -/
theorem classify_historic_type_spec (layers : List String) :
    ("landmarks" ∈ layers → classify_historic_type layers = some "landmark") ∧
    ("landmarks" ∉ layers → "historic_resources" ∈ layers →
        classify_historic_type layers = some "individual") ∧
    ("landmarks" ∉ layers → "historic_resources" ∉ layers →
        (∃ d, d ∈ layers ∧ d ∈ DISTRICT_HISTORIC_LAYERS) →
        classify_historic_type layers = some "district") ∧
    ("landmarks" ∉ layers → "historic_resources" ∉ layers →
        (∀ d, d ∈ layers → d ∉ DISTRICT_HISTORIC_LAYERS) →
        "historic_survey" ∈ layers →
        classify_historic_type layers = some "surveyed") ∧
    ("landmarks" ∉ layers → "historic_resources" ∉ layers →
        (∀ d, d ∈ layers → d ∉ DISTRICT_HISTORIC_LAYERS) →
        "historic_survey" ∉ layers →
        classify_historic_type layers = none) := by
  refine ⟨?_, ?_, ?_, ?_, ?_⟩
  · intro h
    have hne : ¬ layers.isEmpty = true := by
      cases layers with
      | nil => cases h
      | cons a l => simp [List.isEmpty]
    unfold classify_historic_type
    rw [if_neg hne, if_pos h]
  · intro h1 h2
    have hne : ¬ layers.isEmpty = true := by
      cases layers with
      | nil => cases h2
      | cons a l => simp [List.isEmpty]
    unfold classify_historic_type
    rw [if_neg hne, if_neg h1, if_pos h2]
  · rintro h1 h2 ⟨d, hd1, hd2⟩
    have hne : ¬ layers.isEmpty = true := by
      cases layers with
      | nil => cases hd1
      | cons a l => simp [List.isEmpty]
    have hany : layers.any (fun s => decide (s ∈ DISTRICT_HISTORIC_LAYERS)) = true := by
      rw [List.any_eq_true]
      exact ⟨d, hd1, by simpa using hd2⟩
    unfold classify_historic_type
    rw [if_neg hne, if_neg h1, if_neg h2, if_pos hany]
  · intro h1 h2 h3 h4
    have hne : ¬ layers.isEmpty = true := by
      cases layers with
      | nil => cases h4
      | cons a l => simp [List.isEmpty]
    have hany : ¬ layers.any (fun s => decide (s ∈ DISTRICT_HISTORIC_LAYERS)) = true := by
      rw [List.any_eq_true]
      rintro ⟨d, hd1, hd2⟩
      exact h3 d hd1 (by simpa using hd2)
    have hsurv : layers.any (fun s => decide (s ∈ SURVEYED_HISTORIC_LAYERS)) = true := by
      rw [List.any_eq_true]
      exact ⟨"historic_survey", h4, by decide⟩
    unfold classify_historic_type
    rw [if_neg hne, if_neg h1, if_neg h2, if_neg hany, if_pos hsurv]
  · intro h1 h2 h3 h4
    by_cases hne : layers.isEmpty = true
    · unfold classify_historic_type
      rw [if_pos hne]
    · have hany : ¬ layers.any (fun s => decide (s ∈ DISTRICT_HISTORIC_LAYERS)) = true := by
        rw [List.any_eq_true]
        rintro ⟨d, hd1, hd2⟩
        exact h3 d hd1 (by simpa using hd2)
      have hsurv : ¬ layers.any (fun s => decide (s ∈ SURVEYED_HISTORIC_LAYERS)) = true := by
        rw [List.any_eq_true]
        rintro ⟨d, hd1, hd2⟩
        have : d = "historic_survey" := by
          have := hd2
          simp [SURVEYED_HISTORIC_LAYERS] at this
          exact this
        exact h4 (this ▸ hd1)
      unfold classify_historic_type
      rw [if_neg hne, if_neg h1, if_neg h2, if_neg hany, if_neg hsurv]

/-- Witness for C4: a parcel intersecting both the landmarks layer and the
survey layer classifies as landmark. -/
theorem classify_historic_type_spec_witness :
    classify_historic_type ["landmarks", "historic_survey"] = some "landmark" :=
  (classify_historic_type_spec _).1 (by decide)

/-- C6: for a parcel whose tier FAR is present and positive, utilization is
existing_far / upzoned_far clipped to an upper bound of 2.0; for a parcel
whose tier FAR is missing or non-positive, utilization is 0 and the parcel is
never flagged by the utilization exclusion, regardless of existing_far. -/
theorem utilization_spec (row : Row) :
    (∀ f : ℚ, row.FloorAreaRatio = some f → 0 < f →
        utilization row = min 2 (row.existing_far / f)) ∧
    ((row.FloorAreaRatio = none ∨ ∃ f, row.FloorAreaRatio = some f ∧ f ≤ 0) →
        utilization row = 0 ∧ is_highly_utilized row = false) := by
  constructor
  · intro f hf hpos
    simp only [utilization, get_sb79_utilization, hf]
    split_ifs with h0
    · rw [h0, zero_div]
      rw [min_comm]
    · rw [min_comm]
  · intro hcase
    have h0 : get_sb79_utilization row = 0 := by
      rcases hcase with hnone | ⟨f, hf, hle⟩
      · simp only [get_sb79_utilization, hnone]
        split_ifs <;> rfl
      · simp only [get_sb79_utilization, hf]
        split_ifs with h1 h2
        · rfl
        · exact absurd h2 (not_lt.mpr hle)
        · rfl
    have hu : utilization row = 0 := by
      unfold utilization
      rw [h0]
      norm_num
    refine ⟨hu, ?_⟩
    unfold is_highly_utilized
    rw [hu]
    norm_num [UTILIZATION_THRESHOLD]

/-- Witness for C6: a parcel with existing FAR 9 and tier FAR 3 has
utilization min(2, 3) = 2, and a parcel with no tier FAR has utilization 0
and is not flagged, even at existing FAR 9. -/
theorem utilization_spec_witness :
    utilization ⟨none, 5000, none, none, 0, false, false, none, none, some 3, 9⟩ =
      min 2 ((9 : ℚ) / 3) ∧
    utilization ⟨none, 5000, none, none, 0, false, false, none, none, none, 9⟩ = 0 ∧
    is_highly_utilized ⟨none, 5000, none, none, 0, false, false, none, none, none, 9⟩ = false :=
  ⟨(utilization_spec _).1 3 rfl (by norm_num),
   ((utilization_spec _).2 (Or.inl rfl)).1,
   ((utilization_spec _).2 (Or.inl rfl)).2⟩

/-- C10: when the meters-valued height column exists in the footprint layer,
height_m is the meters value with missing values replaced by the 6.0 m
default — independent of the centimeter column — and in particular a row with
a missing meters value gets 6.0 rather than its centimeter value over 100. -/
theorem height_m_column_priority (f : BuildingFrame) (b : BuildingRow)
    (hm : f.has_hgt_median_m = true) :
    height_m f b = b.hgt_median_m.getD 6 ∧
    (∀ c : ℚ, height_m f ⟨none, some c⟩ = 6) := by
  constructor
  · unfold height_m
    rw [if_pos hm]
  · intro c
    unfold height_m
    rw [if_pos hm]
    rfl

/-- Witness for C10: with both columns present and a meters value missing,
height_m is 6, not the centimeter value 300 divided by 100. -/
theorem height_m_column_priority_witness :
    height_m ⟨true, true⟩ ⟨none, some 300⟩ = 6 ∧ (6 : ℚ) ≠ 300 / 100 :=
  ⟨(height_m_column_priority ⟨true, true⟩ ⟨none, some 300⟩ rfl).2 300, by norm_num⟩

/-! ### Lemmas for the tier-join deduplication (C5) -/

theorem keyLE_refl (a : WithBot ℚ × WithBot ℚ) : keyLE a a :=
  Or.inr ⟨rfl, le_refl _⟩

theorem keyLE_trans {a b c : WithBot ℚ × WithBot ℚ}
    (h1 : keyLE a b) (h2 : keyLE b c) : keyLE a c := by
  rcases h1 with h1 | ⟨h1, h1'⟩ <;> rcases h2 with h2 | ⟨h2, h2'⟩
  · exact Or.inl (h1.trans h2)
  · exact Or.inl (h2 ▸ h1)
  · exact Or.inl (h1 ▸ h2)
  · exact Or.inr ⟨h1.trans h2, h1'.trans h2'⟩

theorem keyLE_total (a b : WithBot ℚ × WithBot ℚ) : keyLE a b ∨ keyLE b a := by
  rcases lt_trichotomy a.1 b.1 with h | h | h
  · exact Or.inl (Or.inl h)
  · rcases le_total a.2 b.2 with h' | h'
    · exact Or.inl (Or.inr ⟨h, h'⟩)
    · exact Or.inr (Or.inr ⟨h.symm, h'⟩)
  · exact Or.inr (Or.inl h)

theorem keyLE_of_not_keyLE {a b : WithBot ℚ × WithBot ℚ} (h : ¬ keyLE a b) :
    keyLE b a :=
  (keyLE_total a b).resolve_left h

/-- Descending sortedness of a candidate list: every later candidate's key
is at most every earlier candidate's key. -/
def SortedDescTier (l : List (Nat × TierRec)) : Prop :=
  l.Pairwise (fun x y => keyLE (tierKey y.2) (tierKey x.2))

theorem mem_insertTier {a x : Nat × TierRec} {l : List (Nat × TierRec)} :
    a ∈ insertTier x l ↔ a = x ∨ a ∈ l := by
  induction l with
  | nil => simp [insertTier]
  | cons y ys ih =>
      unfold insertTier
      split_ifs
      · simp
      · simp only [List.mem_cons, ih]
        tauto

theorem sortedDescTier_insertTier {x : Nat × TierRec} {l : List (Nat × TierRec)}
    (h : SortedDescTier l) : SortedDescTier (insertTier x l) := by
  induction l with
  | nil => simp [insertTier, SortedDescTier]
  | cons y ys ih =>
      rcases List.pairwise_cons.mp h with ⟨hhead, htail⟩
      unfold insertTier
      split_ifs with hc
      · refine List.pairwise_cons.mpr ⟨?_, h⟩
        intro b hb
        rcases List.mem_cons.mp hb with rfl | hb
        · exact hc
        · exact keyLE_trans (hhead b hb) hc
      · refine List.pairwise_cons.mpr ⟨?_, ih htail⟩
        intro b hb
        rcases mem_insertTier.mp hb with rfl | hb
        · exact keyLE_of_not_keyLE hc
        · exact hhead b hb

theorem mem_sortTier {a : Nat × TierRec} {l : List (Nat × TierRec)} :
    a ∈ sortTier l ↔ a ∈ l := by
  induction l with
  | nil => simp [sortTier]
  | cons x xs ih =>
      unfold sortTier
      rw [mem_insertTier, ih, List.mem_cons]

theorem sortedDescTier_sortTier (l : List (Nat × TierRec)) :
    SortedDescTier (sortTier l) := by
  induction l with
  | nil => simp [sortTier, SortedDescTier]
  | cons x xs ih => exact sortedDescTier_insertTier ih

theorem countP_dedupFirst_of_seen {s : List (Nat × TierRec)} {seen : List Nat}
    {pid : Nat} (h : pid ∈ seen) :
    (dedupFirst s seen).countP (fun e => decide (e.1 = pid)) = 0 := by
  induction s generalizing seen with
  | nil => rfl
  | cons x xs ih =>
      unfold dedupFirst
      split_ifs with hx
      · exact ih h
      · have hne : ¬ x.1 = pid := fun e => hx (e ▸ h)
        rw [List.countP_cons]
        simp only [hne, decide_False, if_false, add_zero]
        exact ih (List.mem_cons_of_mem _ h)

theorem dedupFirst_subset {e : Nat × TierRec} {s : List (Nat × TierRec)}
    {seen : List Nat} (h : e ∈ dedupFirst s seen) : e ∈ s := by
  induction s generalizing seen with
  | nil => cases h
  | cons x xs ih =>
      unfold dedupFirst at h
      split_ifs at h with hx
      · exact List.mem_cons_of_mem _ (ih h)
      · rcases List.mem_cons.mp h with rfl | h
        · exact List.mem_cons_self _ _
        · exact List.mem_cons_of_mem _ (ih h)

theorem dedupFirst_spec {s : List (Nat × TierRec)} {seen : List Nat} {pid : Nat}
    (hs : SortedDescTier s) (hseen : pid ∉ seen) (hex : ∃ c, (pid, c) ∈ s) :
    ∃ r, (pid, r) ∈ dedupFirst s seen ∧
      (dedupFirst s seen).countP (fun e => decide (e.1 = pid)) = 1 ∧
      ∀ c, (pid, c) ∈ s → keyLE (tierKey c) (tierKey r) := by
  induction s generalizing seen with
  | nil => rcases hex with ⟨c, hc⟩; cases hc
  | cons x xs ih =>
      rcases List.pairwise_cons.mp hs with ⟨hhead, htail⟩
      unfold dedupFirst
      split_ifs with hx
      · have hne : x.1 ≠ pid := fun e => hseen (e ▸ hx)
        have hex' : ∃ c, (pid, c) ∈ xs := by
          rcases hex with ⟨c, hc⟩
          rcases List.mem_cons.mp hc with he | hc
          · exact absurd (congrArg Prod.fst he).symm hne
          · exact ⟨c, hc⟩
        rcases ih htail hseen hex' with ⟨r, h1, h2, h3⟩
        refine ⟨r, h1, h2, ?_⟩
        intro c hc
        rcases List.mem_cons.mp hc with he | hc
        · exact absurd (congrArg Prod.fst he).symm hne
        · exact h3 c hc
      · by_cases hpid : x.1 = pid
        · obtain ⟨p, rec⟩ := x
          cases hpid
          refine ⟨rec, List.mem_cons_self _ _, ?_, ?_⟩
          · rw [List.countP_cons]
            simp only [decide_True, if_true]
            rw [countP_dedupFirst_of_seen (List.mem_cons_self _ _)]
          · intro c hc
            rcases List.mem_cons.mp hc with he | hc
            · rw [show c = rec from congrArg Prod.snd he]
              exact keyLE_refl _
            · exact hhead _ hc
        · have hseen' : pid ∉ x.1 :: seen := by
            intro hmem
            rcases List.mem_cons.mp hmem with he | hmem
            · exact hpid he.symm
            · exact hseen hmem
          have hex' : ∃ c, (pid, c) ∈ xs := by
            rcases hex with ⟨c, hc⟩
            rcases List.mem_cons.mp hc with he | hc
            · exact absurd (congrArg Prod.fst he).symm hpid
            · exact ⟨c, hc⟩
          rcases ih htail hseen' hex' with ⟨r, h1, h2, h3⟩
          refine ⟨r, List.mem_cons_of_mem _ h1, ?_, ?_⟩
          · rw [List.countP_cons]
            simp only [hpid, decide_False, if_false, add_zero]
            exact h2
          · intro c hc
            rcases List.mem_cons.mp hc with he | hc
            · exact absurd (congrArg Prod.fst he).symm hpid
            · exact h3 c hc

/-- C5: in the parcel-to-tier join, for every parcel id with at least one
candidate match, exactly one record survives tierDedup for that id; the
survivor is one of the id's candidates and its (MaxDensity, FloorAreaRatio)
key — null attributes ordered below every value — is greatest among all of
the id's candidates, ties on density broken by FAR (most-permissive-wins). -/
theorem tier_dedup_most_permissive (l : List (Nat × TierRec)) (pid : Nat)
    (c₀ : TierRec) (h : (pid, c₀) ∈ l) :
    ∃ r, (pid, r) ∈ tierDedup l ∧ (pid, r) ∈ l ∧
      (tierDedup l).countP (fun e => decide (e.1 = pid)) = 1 ∧
      ∀ c, (pid, c) ∈ l → keyLE (tierKey c) (tierKey r) := by
  have hs := sortedDescTier_sortTier l
  have hex : ∃ c, (pid, c) ∈ sortTier l := ⟨c₀, mem_sortTier.mpr h⟩
  rcases dedupFirst_spec hs (List.not_mem_nil pid) hex with ⟨r, h1, h2, h3⟩
  exact ⟨r, h1, mem_sortTier.mp (dedupFirst_subset h1), h2,
    fun c hc => h3 c (mem_sortTier.mpr hc)⟩

/-- Witness for C5: among two candidates for parcel 0 — density 1 with null
FAR, and density 2 with FAR 3 — exactly one survives and it dominates both. -/
theorem tier_dedup_most_permissive_witness :
    ∃ r, (0, r) ∈ tierDedup [(0, ⟨some 1, none⟩), (0, ⟨some 2, some 3⟩)] ∧
      (0, r) ∈ [((0 : Nat), (⟨some 1, none⟩ : TierRec)), (0, ⟨some 2, some 3⟩)] ∧
      (tierDedup [(0, ⟨some 1, none⟩), (0, ⟨some 2, some 3⟩)]).countP
        (fun e => decide (e.1 = 0)) = 1 ∧
      ∀ c, ((0 : Nat), c) ∈ [((0 : Nat), (⟨some 1, none⟩ : TierRec)), (0, ⟨some 2, some 3⟩)] →
        keyLE (tierKey c) (tierKey r) :=
  tier_dedup_most_permissive _ 0 ⟨some 1, none⟩ (List.mem_cons_self _ _)

end SB79
